import Mathlib

/-!
Verification development for the MicroScan water-sample analysis front-end.

The repository consists of a Gemini API client (`analyzeSample` in
`src/services/geminiService.ts`) and a React upload/display component
(`App`).  The definitions below are a shallow embedding of that code:

* `SYSTEM_INSTRUCTION`, `promptText`, `responseSchema` transcribe the
  constant strings and the schema literal of `geminiService.ts`.
* `analyzeSample` is the pure core of the TypeScript function of the same
  name: it is parameterised over the two external effects (the remote
  model, represented by the response text it yields, and the JavaScript
  runtime's `JSON.parse`, represented by a function argument `parse`).
* `handleImageUpload`, `handleAnalyze`, `runButtonDisabled`, `slotsLabel`
  embed the state transitions of the `App` component; React state is
  passed explicitly as an `AppState` value and the asynchronous outcome of
  the analysis call is an explicit `AnalyzeOutcome` argument.
-/

/-- JSON values, the result type of the embedded `JSON.parse`. -/
inductive Json where
  | null : Json
  | bool (b : Bool) : Json
  | num (n : Int) : Json
  | str (s : String) : Json
  | arr (elems : List Json) : Json
  | obj (fields : List (String × Json)) : Json
deriving Repr

/-- Field lookup on a JSON value: `none` unless the value is an object
with the field present. -/
def Json.getField : Json → String → Option Json
  | .obj fields, k => fields.lookup k
  | _, _ => none

/-- The `inlineData` payload of an image part (`geminiService.ts` lines 34-39).
`data` is an `Option` because `img.split(',')[1]` is `undefined` in
JavaScript when the string contains no comma. -/
structure InlineData where
  mimeType : String
  data : Option String
deriving Repr, DecidableEq

/-- A part of a `generateContent` request: an inline-data image part or a
text part. -/
inductive ReqPart where
  | inlineData (d : InlineData) : ReqPart
  | text (t : String) : ReqPart
deriving Repr, DecidableEq

/-- The subset of the Gemini response-schema language used by
`responseSchema` (`Type.OBJECT/ARRAY/STRING/NUMBER`, `properties`,
`items`, `required`).  An `obj` node carries its `required` list, empty
when the source literal has no `required` key. -/
inductive Schema where
  | obj (properties : List (String × Schema)) (required : List String) : Schema
  | arr (items : Schema) : Schema
  | str : Schema
  | num : Schema
deriving Repr

/-- The `required` list of an object schema node. -/
def Schema.requiredFields : Schema → List String
  | .obj _ req => req
  | _ => []

/-- The sub-schema declared for property `key` of an object schema node. -/
def Schema.propSchema : Schema → String → Option Schema
  | .obj props _, key => props.lookup key
  | _, _ => none

/-- The `items` sub-schema of an array schema node. -/
def Schema.itemSchema : Schema → Option Schema
  | .arr it => some it
  | _ => none

/-- Transcription of `SYSTEM_INSTRUCTION` (`geminiService.ts` lines 3-29),
byte for byte (including the trailing spaces after "report." and the
final newline). -/
def SYSTEM_INSTRUCTION : String :=
  "You are MicroScan Ocean, an expert AI system specialized in microplastic detection, classification, and environmental health risk analysis.\nYou combine the knowledge of a marine biologist, environmental chemist, and public health scientist.\n\nYour goal is to analyze microscope images of filtered water samples to provide a detailed report. \nSince you are analyzing images without external metadata, you must:\n1. Infer the likely environment (ocean, river, etc.) from the visual characteristics of the sample if possible, or provide a generalized analysis.\n2. Estimate magnification and particle sizes based on standard microscope visual cues.\n3. Detect and count microplastic particles (fibers, fragments, films, beads, foam).\n4. Classify them by type, color, size, and percentage.\n5. Calculate severity (estimate particles/L based on a standard sample volume of 1L if not visually apparent) and score (1-10).\n6. Attribute likely pollution sources based on particle morphology.\n7. Assess marine and human health risks.\n8. Provide remediation recommendations.\n9. Generate a full summary report.\n\nTone: Scientifically precise but plain language.\nIf the image is poor or inconclusive, flag it.\nIf no plastics are found, report CLEAN.\nAlways show your reasoning for size and count estimates.\n\nSCORING SCALE:\n- 0–10 particles/L → CLEAN (Score 1/10)\n- 11–50 particles/L → LOW CONTAMINATION (Score 3/10)\n- 51–150 particles/L → MODERATE CONTAMINATION (Score 5/10)\n- 151–300 particles/L → HIGH CONTAMINATION (Score 7/10)\n- 300+ particles/L → CRITICAL CONTAMINATION (Score 10/10)\n"

/-- The prompt template literal of `geminiService.ts` lines 41-46,
transcribed byte for byte (leading newline, four-space indents, trailing
space after "present." and trailing two-space line). -/
def promptText : String :=
  "\n    Please analyze the attached microscope image(s) of a water sample.\n    Identify any microplastics present. \n    Infer the sample context (likely water source, magnification) from visual evidence.\n    Provide a structured JSON response according to the schema.\n  "

/-- The `responseSchema` literal of `geminiService.ts` lines 59-128.
Object nodes whose source literal has no `required` key get `[]`. -/
def responseSchema : Schema :=
  .obj
    [("reportId", .str),
     ("analysisDate", .str),
     ("detection",
       .obj [("totalCount", .num), ("confidence", .str), ("reasoning", .str)]
         ["totalCount", "confidence", "reasoning"]),
     ("classification",
       .arr (.obj
         [("type", .str), ("count", .num), ("colors", .arr .str),
          ("sizeRange", .str), ("percentage", .num)] [])),
     ("severity",
       .obj [("particlesPerLiter", .num), ("score", .num), ("level", .str),
             ("calculation", .str)] []),
     ("sources",
       .arr (.obj [("source", .str), ("confidence", .num), ("reasoning", .str)] [])),
     ("healthRisk",
       .obj [("marineRisk", .str), ("humanRiskLevel", .str),
             ("humanRiskSummary", .str), ("highestRiskTypes", .arr .str),
             ("healthEffects", .str), ("vulnerablePopulations", .str)] []),
     ("remediation",
       .obj [("immediate", .arr .str), ("policy", .arr .str),
             ("community", .arr .str)] []),
     ("fullReportMarkdown", .str)]
    ["reportId", "analysisDate", "detection", "classification", "severity",
     "sources", "healthRisk", "remediation", "fullReportMarkdown"]

/-- The fixed configuration of a `generateContent` request
(`geminiService.ts` lines 56-129). -/
structure GenerateConfig where
  systemInstruction : String
  responseMimeType : String
  responseSchema : Schema
deriving Repr

/-- A `generateContent` request as assembled by `analyzeSample`
(`geminiService.ts` lines 48-130). -/
structure GenerateContentRequest where
  model : String
  parts : List ReqPart
  config : GenerateConfig
deriving Repr

/-- JavaScript `s.split(sep)` for a one-character separator, on the
character list of `s`: every maximal separator-free run becomes a chunk,
and `"".split(sep)` is `[""]`. -/
def jsSplit (sep : Char) : List Char → List (List Char)
  | [] => [[]]
  | c :: cs =>
    match jsSplit sep cs with
    | r :: rs => if c = sep then [] :: r :: rs else (c :: r) :: rs
    | [] => [[c]]

/-- JavaScript `s.split(',')` as a `String` operation. -/
def splitComma (s : String) : List String :=
  (jsSplit ',' s.toList).map fun cs => String.mk cs

/-- Embedding of `images.map(img => (\x7b inlineData: \x7b mimeType: "image/jpeg",
data: img.split(',')[1] \x7d \x7d))` (`geminiService.ts` lines 34-39):
the data of an image part is element 1 of the comma-split of the image
string (`none` when the string has no comma, mirroring `undefined`). -/
def imageToPart (img : String) : ReqPart :=
  .inlineData { mimeType := "image/jpeg", data := (splitComma img)[1]? }

/-- The request `analyzeSample` sends: image parts in input order followed
by the text prompt, with the fixed model name and config
(`geminiService.ts` lines 48-130). -/
def analyzeRequest (images : List String) : GenerateContentRequest :=
  { model := "gemini-3-flash-preview"
    parts := images.map imageToPart ++ [ReqPart.text promptText]
    config :=
      { systemInstruction := SYSTEM_INSTRUCTION
        responseMimeType := "application/json"
        responseSchema := responseSchema } }

/-- The string handed to `JSON.parse` on `geminiService.ts` line 132:
`response.text || "\x7b\x7d"`.  JavaScript `||` replaces the two falsy
string cases, `undefined` and `""`, by the literal. -/
def responseTextArg (text : Option String) : String :=
  match text with
  | none => "\x7b\x7d"
  | some t => if t = "" then "\x7b\x7d" else t

/-- The value `analyzeSample` returns (`geminiService.ts` line 132),
with the JavaScript runtime's `JSON.parse` passed in as `parse`. -/
def analyzeResult (parse : String → Json) (text : Option String) : Json :=
  parse (responseTextArg text)

/-- The whole of `analyzeSample` (`geminiService.ts` lines 31-133) as a
pure function: given the runtime `parse` and the model's response text,
an invocation on `images` is the single request it sends paired with the
value it returns. -/
def analyzeSample (parse : String → Json) (images : List String)
    (responseText : Option String) : GenerateContentRequest × Json :=
  (analyzeRequest images, analyzeResult parse responseText)

/-- The requests issued by one invocation of `analyzeSample`: exactly the
one `await ai.models.generateContent(...)` on line 48. -/
def analyzeCalls (images : List String) : List GenerateContentRequest :=
  [analyzeRequest images]

example : imageToPart "data:image/png;base64,QUJD" =
    .inlineData { mimeType := "image/jpeg", data := some "QUJD" } := by decide

example : imageToPart "a,b,c" =
    .inlineData { mimeType := "image/jpeg", data := some "b" } := by decide

example : imageToPart "nocomma" =
    .inlineData { mimeType := "image/jpeg", data := none } := by decide

/-! ### The `App` component state and handlers -/

/-- The React state of `App`: the four `useState` hooks `images`,
`isAnalyzing`, `result`, `error` (the rotating `loadingMessage` is purely
cosmetic and not modelled). -/
structure AppState where
  images : List String
  isAnalyzing : Bool
  result : Option Json
  error : Option String
deriving Repr

/-- The outcome of the awaited `analyzeSample(images)` call inside
`handleAnalyze`: either a parsed value or a thrown error whose `message`
may be absent. -/
inductive AnalyzeOutcome where
  | ok (data : Json) : AnalyzeOutcome
  | thrown (message : Option String) : AnalyzeOutcome
deriving Repr

/-- Embedding of `err.message || fallback`: JavaScript `||` yields the fallback when
the message is `undefined` or the empty string. -/
def errorMessageOr (fallback : String) : Option String → String
  | none => fallback
  | some m => if m = "" then fallback else m

/-- Embedding of `handleAnalyze` of `App`: with no images it only sets the error
message and returns; otherwise it clears the error, runs the analysis
(whose outcome is the explicit `outcome` argument), stores the result or
the error message, and ends with `isAnalyzing` reset to `false` by the
`finally` block. -/
def handleAnalyze (outcome : AnalyzeOutcome) (s : AppState) : AppState :=
  if s.images.length = 0 then
    { s with error := some "Please upload at least one microscope image." }
  else
    match outcome with
    | .ok data =>
        { s with isAnalyzing := false, error := none, result := some data }
    | .thrown m =>
        { s with isAnalyzing := false,
                 error := some (errorMessageOr "An error occurred during analysis." m) }

/-- The argument lists of the `analyzeSample` calls `handleAnalyze`
makes: none when `images` is empty (the guard returns first), otherwise
the single call `analyzeSample(images)` with the full list. -/
def handleAnalyzeCalls (s : AppState) : List (List String) :=
  if s.images.length = 0 then [] else [s.images]

/-- Embedding of `handleImageUpload` of `App`: each selected file is read as a data
URL and, when its reader fires, appended to the current list via
`setImages(prev => [...prev, reader.result])`.  `dataURLs` is the list of
the files' data URLs in the order the readers complete. -/
def handleImageUpload (dataURLs : List String) (images : List String) :
    List String :=
  dataURLs.foldl (fun acc url => acc ++ [url]) images

/-- Embedding of `removeImage` of `App`: drops the image at `index`. -/
def removeImage (index : Nat) (images : List String) : List String :=
  (images.enum.filter fun p => p.1 ≠ index).map fun p => p.2

/-- The `disabled` condition of the Run Analysis button:
`isAnalyzing || images.length === 0`. -/
def runButtonDisabled (s : AppState) : Bool :=
  s.isAnalyzing || s.images.length = 0

/-- The slot counter the upload section shows:
`"\x7bimages.length\x7d/5 Slots"`. -/
def slotsLabel (images : List String) : String :=
  toString images.length ++ "/5 Slots"

/-! ### The scoring scale stated in the system instruction

The SCORING SCALE block of `SYSTEM_INSTRUCTION` (`geminiService.ts`
lines 23-28) is a table of particles-per-liter bands.  Each band is
formalised as an inclusive lower bound, an optional inclusive upper bound
(`none` for the open-ended "300+"), a contamination level and a score. -/

/-- One line of the SCORING SCALE block. -/
structure ScaleBand where
  lo : Nat
  hi : Option Nat
  level : String
  score : Nat
deriving Repr

/-- Whether a particles-per-liter value falls in the band. -/
def ScaleBand.holds (b : ScaleBand) (v : Nat) : Bool :=
  decide (b.lo ≤ v) &&
    match b.hi with
    | none => true
    | some h => decide (v ≤ h)

/-- The five lines of the SCORING SCALE block, in order. -/
def scoringScale : List ScaleBand :=
  [{ lo := 0, hi := some 10, level := "CLEAN", score := 1 },
   { lo := 11, hi := some 50, level := "LOW CONTAMINATION", score := 3 },
   { lo := 51, hi := some 150, level := "MODERATE CONTAMINATION", score := 5 },
   { lo := 151, hi := some 300, level := "HIGH CONTAMINATION", score := 7 },
   { lo := 300, hi := none, level := "CRITICAL CONTAMINATION", score := 10 }]

/-- How many bands of the scale a given particles-per-liter value falls
in. -/
def bandCount (v : Nat) : Nat :=
  (scoringScale.filter fun b => b.holds v).length

/-- The contamination levels the scale assigns to a value. -/
def levelsFor (v : Nat) : List String :=
  (scoringScale.filter fun b => b.holds v).map ScaleBand.level

example : bandCount 0 = 1 := by decide
example : bandCount 10 = 1 := by decide
example : bandCount 11 = 1 := by decide
example : bandCount 299 = 1 := by decide
example : bandCount 300 = 2 := by decide
example : bandCount 301 = 1 := by decide

/-! ### Schema conformance and the `AnalysisResult` type of `types.ts`

`conformsFuel` checks a JSON value against a `Schema` the way the schema
declaration constrains responses: the value has the declared type, every
`required` field of an object node is present, and every present field
that the node declares is checked against its sub-schema.  The `fuel`
argument only bounds the recursion depth; `responseSchema` is three
levels deep, so any fuel of at least 4 is exact for it.

`isAnalysisResult` checks the structural contract of the `AnalysisResult`
interface of `types.ts`: every declared field present with the declared
shape, string-literal unions checked by membership. -/

/-- Conformance of a JSON value to a schema, to a recursion depth. -/
def conformsFuel : Nat → Json → Schema → Bool
  | 0, _, _ => false
  | fuel + 1, j, s =>
    match j, s with
    | .str _, .str => true
    | .num _, .num => true
    | .arr es, .arr it => es.all fun e => conformsFuel fuel e it
    | .obj fs, .obj props req =>
        (req.all fun k => (fs.lookup k).isSome) &&
        (props.all fun p =>
          match fs.lookup p.1 with
          | none => true
          | some v => conformsFuel fuel v p.2)
    | _, _ => false

/-- Is the value a JSON string? -/
def Json.isStr : Json → Bool
  | .str _ => true
  | _ => false

/-- Is the value a JSON number? -/
def Json.isNum : Json → Bool
  | .num _ => true
  | _ => false

/-- Is the value a JSON array of strings? -/
def Json.isStrArr : Json → Bool
  | .arr es => es.all Json.isStr
  | _ => false

/-- Field `k` is present and satisfies `p`. -/
def fieldSat (j : Json) (k : String) (p : Json → Bool) : Bool :=
  match j.getField k with
  | some v => p v
  | none => false

/-- The `detection` member of `AnalysisResult` (`types.ts` lines 12-16):
`totalCount : number`, `confidence : 'High' | 'Medium' | 'Low'`,
`reasoning : string`. -/
def isDetection (j : Json) : Bool :=
  fieldSat j "totalCount" Json.isNum &&
  fieldSat j "confidence" (fun v =>
    match v with
    | .str s => s = "High" || s = "Medium" || s = "Low"
    | _ => false) &&
  fieldSat j "reasoning" Json.isStr

/-- The `ParticleClassification` interface (`types.ts` lines 1-7). -/
def isParticleClassification (j : Json) : Bool :=
  fieldSat j "type" Json.isStr &&
  fieldSat j "count" Json.isNum &&
  fieldSat j "colors" Json.isStrArr &&
  fieldSat j "sizeRange" Json.isStr &&
  fieldSat j "percentage" Json.isNum

/-- The `severity` member of `AnalysisResult` (`types.ts` lines 18-23). -/
def isSeverity (j : Json) : Bool :=
  fieldSat j "particlesPerLiter" Json.isNum &&
  fieldSat j "score" Json.isNum &&
  fieldSat j "level" Json.isStr &&
  fieldSat j "calculation" Json.isStr

/-- One entry of `sources` of `AnalysisResult` (`types.ts` lines 24-28). -/
def isSourceEntry (j : Json) : Bool :=
  fieldSat j "source" Json.isStr &&
  fieldSat j "confidence" Json.isNum &&
  fieldSat j "reasoning" Json.isStr

/-- The `healthRisk` member of `AnalysisResult` (`types.ts` lines 29-36). -/
def isHealthRisk (j : Json) : Bool :=
  fieldSat j "marineRisk" Json.isStr &&
  fieldSat j "humanRiskLevel" (fun v =>
    match v with
    | .str s =>
        s = "NEGLIGIBLE" || s = "LOW" || s = "MODERATE" || s = "HIGH" ||
          s = "CRITICAL"
    | _ => false) &&
  fieldSat j "humanRiskSummary" Json.isStr &&
  fieldSat j "highestRiskTypes" Json.isStrArr &&
  fieldSat j "healthEffects" Json.isStr &&
  fieldSat j "vulnerablePopulations" Json.isStr

/-- The `remediation` member of `AnalysisResult` (`types.ts` lines 37-41). -/
def isRemediation (j : Json) : Bool :=
  fieldSat j "immediate" Json.isStrArr &&
  fieldSat j "policy" Json.isStrArr &&
  fieldSat j "community" Json.isStrArr

/-- The structural contract of `AnalysisResult` (`types.ts` lines 9-43). -/
def isAnalysisResult (j : Json) : Bool :=
  fieldSat j "reportId" Json.isStr &&
  fieldSat j "analysisDate" Json.isStr &&
  fieldSat j "detection" isDetection &&
  fieldSat j "classification" (fun v =>
    match v with
    | .arr es => es.all isParticleClassification
    | _ => false) &&
  fieldSat j "severity" isSeverity &&
  fieldSat j "sources" (fun v =>
    match v with
    | .arr es => es.all isSourceEntry
    | _ => false) &&
  fieldSat j "healthRisk" isHealthRisk &&
  fieldSat j "remediation" isRemediation &&
  fieldSat j "fullReportMarkdown" Json.isStr

/-- The fields the `AnalysisResult` interface declares as mandatory at
the top level: all nine of them (`types.ts` has no optional markers). -/
def analysisResultMandatory : List String :=
  ["reportId", "analysisDate", "detection", "classification", "severity",
   "sources", "healthRisk", "remediation", "fullReportMarkdown"]

/-- The mandatory fields of `detection` in `types.ts`. -/
def detectionMandatory : List String :=
  ["totalCount", "confidence", "reasoning"]

/-- The mandatory fields of `ParticleClassification` in `types.ts`. -/
def classificationItemMandatory : List String :=
  ["type", "count", "colors", "sizeRange", "percentage"]

/-- The mandatory fields of `severity` in `types.ts`. -/
def severityMandatory : List String :=
  ["particlesPerLiter", "score", "level", "calculation"]

/-- The mandatory fields of a `sources` entry in `types.ts`. -/
def sourceEntryMandatory : List String :=
  ["source", "confidence", "reasoning"]

/-- The mandatory fields of `healthRisk` in `types.ts`. -/
def healthRiskMandatory : List String :=
  ["marineRisk", "humanRiskLevel", "humanRiskSummary", "highestRiskTypes",
   "healthEffects", "vulnerablePopulations"]

/-- The mandatory fields of `remediation` in `types.ts`. -/
def remediationMandatory : List String :=
  ["immediate", "policy", "community"]

/-- A response that satisfies every constraint `responseSchema` declares
but omits all of `severity`, `healthRisk` and `remediation` contents:
those object nodes of the schema have no `required` list, so their empty
objects conform. -/
def schemaGapExample : Json :=
  .obj
    [("reportId", .str "R-1"),
     ("analysisDate", .str "2026-01-01"),
     ("detection",
       .obj [("totalCount", .num 5), ("confidence", .str "High"),
             ("reasoning", .str "counted")]),
     ("classification", .arr []),
     ("severity", .obj []),
     ("sources", .arr []),
     ("healthRisk", .obj []),
     ("remediation", .obj []),
     ("fullReportMarkdown", .str "# report")]

example : conformsFuel 10 schemaGapExample responseSchema = true := by decide
example : isAnalysisResult schemaGapExample = false := by decide

/-! ### Spec-side definitions and helper lemmas -/

/-- Following the wording of the specification claim about image
packaging: the portion of a character list after its first comma,
`none` when there is no comma. -/
def afterFirstComma : List Char → Option (List Char)
  | [] => none
  | c :: cs => if c = ',' then some cs else afterFirstComma cs

/-- String form of `afterFirstComma`. -/
def afterFirstCommaStr (s : String) : Option String :=
  (afterFirstComma s.toList).map fun cs => String.mk cs

/-- A concrete stand-in for the runtime `JSON.parse`, fixed only on the
input `"\x7b\x7d"` where the JavaScript semantics is the empty object. -/
def emptyObjParse : String → Json :=
  fun s => if s = "\x7b\x7d" then Json.obj [] else Json.null

/-- Sequential executions of `analyzeSample`, one entry per invocation:
each call is an images list paired with the response text the model
returns for it.  `analyzeSample` reads and writes no module state (its
only free names are the constants above and its arguments, and it builds
a fresh client each call), so a run is a plain `map`. -/
def runAnalyses (parse : String → Json) (calls : List (List String × Option String)) :
    List (GenerateContentRequest × Json) :=
  calls.map fun c => analyzeSample parse c.1 c.2

/-- `jsSplit` never produces the empty list of chunks. -/
theorem jsSplit_ne_nil (sep : Char) (cs : List Char) : jsSplit sep cs ≠ [] := by
  cases cs with
  | nil => simp [jsSplit]
  | cons c cs =>
      simp only [jsSplit]
      cases jsSplit sep cs with
      | nil => simp
      | cons r rs =>
          by_cases h : c = sep <;> simp [h]

/-- The first chunk of `jsSplit` is the maximal separator-free prefix. -/
theorem jsSplit_head (sep : Char) (cs : List Char) :
    ∃ rs, jsSplit sep cs = cs.takeWhile (fun c => c != sep) :: rs := by
  induction cs with
  | nil => exact ⟨[], rfl⟩
  | cons c cs ih =>
      obtain ⟨rs, hrs⟩ := ih
      by_cases h : c = sep
      · refine ⟨cs.takeWhile (fun c => c != sep) :: rs, ?_⟩
        simp [jsSplit, hrs, h, List.takeWhile_cons]
      · refine ⟨rs, ?_⟩
        simp [jsSplit, hrs, h, List.takeWhile_cons]

/-- Chunk 1 of the comma split is the portion after the first comma,
truncated at the next comma: exactly what `img.split(',')[1]` extracts. -/
theorem jsSplit_second_chunk (cs : List Char) :
    (jsSplit ',' cs)[1]? =
      (afterFirstComma cs).map (List.takeWhile fun c => c != ',') := by
  induction cs with
  | nil => simp [jsSplit, afterFirstComma]
  | cons c cs ih =>
      by_cases h : c = ','
      · obtain ⟨rs, hrs⟩ := jsSplit_head ',' cs
        simp [jsSplit, hrs, h, afterFirstComma]
      · have hne := jsSplit_ne_nil ',' cs
        cases hsp : jsSplit ',' cs with
        | nil => exact absurd hsp hne
        | cons r rs =>
            rw [hsp] at ih
            simpa [jsSplit, hsp, h, afterFirstComma] using ih

/-- Unfolding of `handleImageUpload`: appending each data URL in turn is
appending the whole list. -/
theorem handleImageUpload_eq_append (dataURLs images : List String) :
    handleImageUpload dataURLs images = images ++ dataURLs := by
  induction dataURLs generalizing images with
  | nil => simp [handleImageUpload]
  | cons u us ih =>
      show handleImageUpload us (images ++ [u]) = images ++ u :: us
      rw [ih, List.append_assoc]
      rfl

/-! ### The claims -/

/-- Claim C1: for every pair of input image lists, `analyzeSample` passes
the same model name `"gemini-3-flash-preview"`, the same system
instruction, the same prompt text and the same response schema to the
`generateContent` call; only the image parts derived from the input vary
between the two runs. -/
theorem analyzeSample_fixed_request (parse : String → Json)
    (imgs1 imgs2 : List String) (t1 t2 : Option String) :
    (analyzeSample parse imgs1 t1).1.model = "gemini-3-flash-preview" ∧
    (analyzeSample parse imgs1 t1).1.model = (analyzeSample parse imgs2 t2).1.model ∧
    (analyzeSample parse imgs1 t1).1.config = (analyzeSample parse imgs2 t2).1.config ∧
    (analyzeSample parse imgs1 t1).1.config.systemInstruction = SYSTEM_INSTRUCTION ∧
    (analyzeSample parse imgs1 t1).1.config.responseSchema = responseSchema ∧
    (analyzeSample parse imgs1 t1).1.parts =
      imgs1.map imageToPart ++ [ReqPart.text promptText] ∧
    (analyzeSample parse imgs2 t2).1.parts =
      imgs2.map imageToPart ++ [ReqPart.text promptText] :=
  ⟨rfl, rfl, rfl, rfl, rfl, rfl, rfl⟩

/-- Claim C3, counterexample: on the image string `"a,b,c"` the part data
is `"b"`, the comma-split element 1, not the portion `"b,c"` after the
first comma that the claim describes, so the claimed parts list differs
from the one built. -/
theorem analyzeSample_parts_counterexample :
    (analyzeRequest ["a,b,c"]).parts ≠
      ["a,b,c"].map (fun img =>
        ReqPart.inlineData { mimeType := "image/jpeg", data := afterFirstCommaStr img })
        ++ [ReqPart.text promptText] := by decide

/-- Claim C3, amended: each invocation of `analyzeSample` makes exactly
one `generateContent` call, whose parts list is the input images in their
given order — each an inline-data part with mimeType `"image/jpeg"` and
data equal to the portion of the image string after its first comma
truncated at the next comma (element 1 of the comma split; absent when
the string has no comma) — followed by a single text prompt part. -/
theorem analyzeSample_request_parts (images : List String) (_h : images ≠ []) :
    analyzeCalls images = [analyzeRequest images] ∧
    (analyzeCalls images).length = 1 ∧
    (analyzeRequest images).parts =
      images.map imageToPart ++ [ReqPart.text promptText] ∧
    (∀ img, imageToPart img =
      ReqPart.inlineData
        { mimeType := "image/jpeg",
          data := (afterFirstComma img.toList).map fun cs =>
            String.mk (cs.takeWhile fun c => c != ',') }) ∧
    (analyzeRequest images).parts.length = images.length + 1 := by
  refine ⟨rfl, rfl, rfl, ?_, ?_⟩
  · intro img
    simp [imageToPart, splitComma, jsSplit_second_chunk, Option.map_map]
    rfl
  · simp [analyzeRequest]

/-- Claim C3, witness for the amended statement. -/
theorem analyzeSample_request_parts_witness :
    analyzeCalls ["data:image/jpeg;base64,QUJD"] =
      [analyzeRequest ["data:image/jpeg;base64,QUJD"]] ∧
    (analyzeCalls ["data:image/jpeg;base64,QUJD"]).length = 1 ∧
    (analyzeRequest ["data:image/jpeg;base64,QUJD"]).parts =
      ["data:image/jpeg;base64,QUJD"].map imageToPart ++ [ReqPart.text promptText] ∧
    (∀ img, imageToPart img =
      ReqPart.inlineData
        { mimeType := "image/jpeg",
          data := (afterFirstComma img.toList).map fun cs =>
            String.mk (cs.takeWhile fun c => c != ',') }) ∧
    (analyzeRequest ["data:image/jpeg;base64,QUJD"]).parts.length =
      ["data:image/jpeg;base64,QUJD"].length + 1 :=
  analyzeSample_request_parts ["data:image/jpeg;base64,QUJD"] (by decide)

/-- Claim C4: whenever the model response's text field is a non-empty
string `t`, `analyzeSample` returns exactly `JSON.parse(t)` — the parsed
value is handed back with no field added, removed or transformed. -/
theorem analyzeSample_returns_parse (parse : String → Json)
    (images : List String) (t : String) (h : t ≠ "") :
    (analyzeSample parse images (some t)).2 = parse t := by
  simp [analyzeSample, analyzeResult, responseTextArg, h]

/-- Claim C4, witness. -/
theorem analyzeSample_returns_parse_witness :
    (analyzeSample Json.str [] (some "null")).2 = Json.str "null" :=
  analyzeSample_returns_parse Json.str [] "null" (by decide)

/-- Claim C6: if the model response's text field is `undefined` or the
empty string, `analyzeSample` returns the empty object — a value with
none of the fields `AnalysisResult` requires — rather than raising an
error. -/
theorem analyzeSample_empty_response (parse : String → Json)
    (images : List String) (hparse : parse "\x7b\x7d" = Json.obj []) :
    (analyzeSample parse images none).2 = Json.obj [] ∧
    (analyzeSample parse images (some "")).2 = Json.obj [] ∧
    ∀ k ∈ analysisResultMandatory,
      ((analyzeSample parse images none).2).getField k = none := by
  refine ⟨?_, ?_, ?_⟩ <;>
    simp [analyzeSample, analyzeResult, responseTextArg, hparse, Json.getField]

/-- Claim C6, witness. -/
theorem analyzeSample_empty_response_witness :
    (analyzeSample emptyObjParse [] none).2 = Json.obj [] ∧
    (analyzeSample emptyObjParse [] (some "")).2 = Json.obj [] ∧
    ((analyzeSample emptyObjParse [] none).2).getField "reportId" = none :=
  ⟨(analyzeSample_empty_response emptyObjParse [] rfl).1,
   (analyzeSample_empty_response emptyObjParse [] rfl).2.1,
   (analyzeSample_empty_response emptyObjParse [] rfl).2.2 "reportId" (by decide)⟩

/-- Claim C2, counterexample: at 300 particles/L two lines of the scoring
scale apply — "151–300" (HIGH, score 7) and "300+" (CRITICAL, score 10) —
so the scale does not assign exactly one contamination level and one
score to every non-negative value. -/
theorem scoringScale_overlap_at_300 :
    bandCount 300 ≠ 1 ∧
    levelsFor 300 = ["HIGH CONTAMINATION", "CRITICAL CONTAMINATION"] := by
  decide

/-- Claim C2, amended: the scoring scale stated in the system instruction
assigns to every non-negative integer particles-per-liter value at least
one contamination level and score, and to every value other than 300 —
where the "151–300" and "300+" lines overlap — exactly one; every score
it assigns is a 1–10 rating. -/
theorem scoringScale_assignment (v : Nat) :
    1 ≤ bandCount v ∧ (v ≠ 300 → bandCount v = 1) ∧
    (scoringScale.all fun b => decide (1 ≤ b.score) && decide (b.score ≤ 10)) =
      true := by
  refine ⟨?_, fun hv => ?_, by decide⟩ <;>
  · simp only [bandCount, scoringScale, List.filter_cons, List.filter_nil,
      ScaleBand.holds, Bool.and_eq_true, decide_eq_true_eq]
    split_ifs <;> simp_all <;> omega

/-- Claim C2, witness for the amended statement. -/
theorem scoringScale_assignment_witness :
    1 ≤ bandCount 42 ∧ bandCount 42 = 1 ∧
    (scoringScale.all fun b => decide (1 ≤ b.score) && decide (b.score ≤ 10)) =
      true :=
  ⟨(scoringScale_assignment 42).1,
   (scoringScale_assignment 42).2.1 (by decide),
   (scoringScale_assignment 42).2.2⟩

/-- Claim C5, counterexample: the `severity` node of `responseSchema`
declares no required fields although every `severity` field of
`AnalysisResult` is mandatory, and the concrete response
`schemaGapExample` — empty `severity`, `healthRisk` and `remediation`
objects — satisfies every constraint of the schema without being a
well-formed `AnalysisResult` value. -/
theorem responseSchema_required_counterexample :
    (responseSchema.propSchema "severity").map Schema.requiredFields ≠
      some severityMandatory ∧
    conformsFuel 10 schemaGapExample responseSchema = true ∧
    isAnalysisResult schemaGapExample = false := by decide

/-- Claim C5, amended: `responseSchema` marks as required exactly the
mandatory `AnalysisResult` fields at the top level and in the `detection`
sub-object, but declares no required fields in the classification-item,
`severity`, sources-item, `healthRisk` and `remediation` object nodes, so
a response can conform to the schema while missing fields the
`AnalysisResult` type requires. -/
theorem responseSchema_required_only_top_and_detection :
    responseSchema.requiredFields = analysisResultMandatory ∧
    (responseSchema.propSchema "detection").map Schema.requiredFields =
      some detectionMandatory ∧
    ((responseSchema.propSchema "classification").bind Schema.itemSchema).map
      Schema.requiredFields = some [] ∧
    (responseSchema.propSchema "severity").map Schema.requiredFields =
      some [] ∧
    ((responseSchema.propSchema "sources").bind Schema.itemSchema).map
      Schema.requiredFields = some [] ∧
    (responseSchema.propSchema "healthRisk").map Schema.requiredFields =
      some [] ∧
    (responseSchema.propSchema "remediation").map Schema.requiredFields =
      some [] ∧
    classificationItemMandatory ≠ [] ∧ severityMandatory ≠ [] ∧
    sourceEntryMandatory ≠ [] ∧ healthRiskMandatory ≠ [] ∧
    remediationMandatory ≠ [] ∧
    conformsFuel 10 schemaGapExample responseSchema = true ∧
    isAnalysisResult schemaGapExample = false := by decide

/-- Claim C7: when the images list is empty, `handleAnalyze` sets the
error to "Please upload at least one microscope image." and returns
without calling `analyzeSample`, leaving `isAnalyzing` and `result`
unchanged; the Run Analysis button is disabled whenever the images list
is empty. -/
theorem handleAnalyze_no_images (outcome : AnalyzeOutcome) (s : AppState)
    (h : s.images = []) :
    handleAnalyze outcome s =
      { s with error := some "Please upload at least one microscope image." } ∧
    (handleAnalyze outcome s).isAnalyzing = s.isAnalyzing ∧
    (handleAnalyze outcome s).result = s.result ∧
    handleAnalyzeCalls s = [] ∧
    runButtonDisabled s = true := by
  have hlen : s.images.length = 0 := by rw [h]; rfl
  refine ⟨?_, ?_, ?_, ?_, ?_⟩ <;>
    simp [handleAnalyze, handleAnalyzeCalls, runButtonDisabled, hlen]

/-- Claim C7, witness. -/
theorem handleAnalyze_no_images_witness :
    handleAnalyze (AnalyzeOutcome.ok Json.null)
        { images := [], isAnalyzing := false, result := none, error := none } =
      { images := [], isAnalyzing := false, result := none,
        error := some "Please upload at least one microscope image." } ∧
    (handleAnalyze (AnalyzeOutcome.ok Json.null)
        { images := [], isAnalyzing := false, result := none,
          error := none }).isAnalyzing = false ∧
    (handleAnalyze (AnalyzeOutcome.ok Json.null)
        { images := [], isAnalyzing := false, result := none,
          error := none }).result = none ∧
    handleAnalyzeCalls
      { images := [], isAnalyzing := false, result := none, error := none } =
      [] ∧
    runButtonDisabled
      { images := [], isAnalyzing := false, result := none, error := none } =
      true :=
  handleAnalyze_no_images (AnalyzeOutcome.ok Json.null)
    { images := [], isAnalyzing := false, result := none, error := none } rfl

/-- Claim C8: `handleImageUpload` converts each selected file to a data
URL and appends it to the images list; every previously uploaded image is
unchanged in content and keeps its position. -/
theorem handleImageUpload_preserves (dataURLs images : List String) :
    handleImageUpload dataURLs images = images ++ dataURLs ∧
    (handleImageUpload dataURLs images).length =
      images.length + dataURLs.length ∧
    ∀ i, i < images.length →
      (handleImageUpload dataURLs images)[i]? = images[i]? := by
  refine ⟨handleImageUpload_eq_append dataURLs images, ?_, ?_⟩
  · rw [handleImageUpload_eq_append]; simp
  · intro i hi
    rw [handleImageUpload_eq_append]
    simp [List.getElem?_append, hi]

/-- Claim C8, witness. -/
theorem handleImageUpload_preserves_witness :
    handleImageUpload ["u2"] ["u1"] = ["u1"] ++ ["u2"] ∧
    (handleImageUpload ["u2"] ["u1"])[0]? = (["u1"] : List String)[0]? :=
  ⟨(handleImageUpload_preserves ["u2"] ["u1"]).1,
   (handleImageUpload_preserves ["u2"] ["u1"]).2.2 0 (by decide)⟩

/-- Claim C9: although the UI shows a "/5 Slots" counter, no operation
enforces a five-image limit — uploading `k` files to `n` images always
yields `n + k` images, even past 5, and `handleAnalyze` passes the whole
list to `analyzeSample`. -/
theorem no_five_image_cap (images dataURLs : List String) (isA : Bool)
    (res : Option Json) (err : Option String) (h : images ≠ []) :
    (handleImageUpload dataURLs images).length =
      images.length + dataURLs.length ∧
    handleAnalyzeCalls
      { images := images, isAnalyzing := isA, result := res, error := err } =
      [images] ∧
    slotsLabel images = toString images.length ++ "/5 Slots" := by
  refine ⟨?_, ?_, rfl⟩
  · rw [handleImageUpload_eq_append]; simp
  · simp [handleAnalyzeCalls, List.length_eq_zero, h]

/-- Claim C9, witness: three uploads on top of three images give six,
past the displayed five-slot cap, and the six are all handed on. -/
theorem no_five_image_cap_witness :
    (handleImageUpload ["d", "e", "f"] ["a", "b", "c"]).length =
      (["a", "b", "c"] : List String).length +
        (["d", "e", "f"] : List String).length ∧
    handleAnalyzeCalls
      { images := ["a", "b", "c"], isAnalyzing := false, result := none,
        error := none } = [["a", "b", "c"]] ∧
    slotsLabel ["a", "b", "c"] =
      toString (["a", "b", "c"] : List String).length ++ "/5 Slots" :=
  no_five_image_cap ["a", "b", "c"] ["d", "e", "f"] false none none
    (by decide)

/-- Claim C10: `analyzeSample` keeps no state across calls — in a run of
invocations the outcome at each position is a function of that call's
arguments alone, unchanged by whatever precedes or follows it, and two
calls with the same images and the same response text produce identical
results. -/
theorem analyzeSample_stateless (parse : String → Json)
    (pre post calls : List (List String × Option String))
    (c : List String × Option String) (i j : Nat)
    (hij : calls[i]? = calls[j]?) :
    (runAnalyses parse (pre ++ c :: post))[pre.length]? =
      some (analyzeSample parse c.1 c.2) ∧
    runAnalyses parse (pre ++ c :: post) =
      runAnalyses parse pre ++
        analyzeSample parse c.1 c.2 :: runAnalyses parse post ∧
    (runAnalyses parse calls)[i]? = (runAnalyses parse calls)[j]? := by
  refine ⟨?_, by simp [runAnalyses], by simp [runAnalyses, List.getElem?_map, hij]⟩
  have hsplit : runAnalyses parse (pre ++ c :: post) =
      runAnalyses parse pre ++
        analyzeSample parse c.1 c.2 :: runAnalyses parse post := by
    simp [runAnalyses]
  have hlen : (runAnalyses parse pre).length = pre.length := by
    simp [runAnalyses]
  rw [hsplit, List.getElem?_append, hlen]
  simp

/-- Claim C10, witness. -/
theorem analyzeSample_stateless_witness :
    (runAnalyses Json.str ([] ++ ([], none) :: []))[(0 : Nat)]? =
      some (analyzeSample Json.str [] none) ∧
    runAnalyses Json.str ([] ++ ([], none) :: []) =
      runAnalyses Json.str [] ++
        analyzeSample Json.str [] none :: runAnalyses Json.str [] ∧
    (runAnalyses Json.str [([], none)])[(0 : Nat)]? =
      (runAnalyses Json.str [([], none)])[(0 : Nat)]? :=
  analyzeSample_stateless Json.str [] [] [([], none)] ([], none) 0 0 rfl
